import Mathlib

/-!
# Verification of the 3D Toy Generation service (`src/main.py`)

Shallow embedding of the FastAPI orchestration service: request gateway
endpoints (`/generate-toy`, `/generate-image-only`, `/image-to-3d`), the
vision-describer / prompt-composer / image-synthesizer helpers of
`ToyGenerationService`, the 3D reconstructor (`generate_3d_model`), and the
retention sweeper (`cleanup_files`).

Modelling conventions:
* The filesystem is a list of `FileEntry` records (path, mtime, regular-file
  flag, content).  `open(path, "wb")`+`write` is `writeFS` (overwrite
  semantics); `Path.unlink` with suppressed errors is `unlinkFS` (remove if
  present).
* `uuid.uuid4()` is modelled as drawing from a `Nat` counter (a fresh-name
  supply): each draw returns the current counter value and increments it.
  This is the standard fresh-supply model of uuid uniqueness; file names that
  embed a uuid are modelled by the `FName` constructors carrying the token.
* External model calls (Gemini vision / image generation, the Trellis
  pipeline) are untrusted oracles: an `Oracle` record fixes each call's
  outcome (`Except` for a raised exception vs. a returned value).  Every
  call made is recorded in a trace (`Call` list) so that "before invoking any
  model call" is expressible.
* `fastapi.HTTPException` is `HTTPErr` (status, detail); `str(exc)` is
  Starlette's `"{status_code}: {detail}"` rendering (`HTTPErr.str`).
* Python's `except Exception` clauses are modelled where they matter: inside
  `generate_toy_image` the inner `HTTPException(500, "Model did not return an
  image")` is caught by that same function's generic handler and re-wrapped.
  Failures of pure-Python file writes are not modelled (writes are total).
-/

namespace ToyService

/-- The three directories the service creates at startup
(`UPLOAD_DIR = uploads`, `OUTPUT_DIR = outputs`, `TEMP_DIR = temp`). -/
inductive Dir : Type
  | uploads
  | outputs
  | temp
deriving DecidableEq, Repr

/-- File names used by the service.  Each service-generated name embeds a
freshly drawn uuid token (`person_{u}.png`, `style_{u}.png`, `input_{u}.png`,
`generated_toy_{u}.png`, `model_{u}.ply`, `preview_{u}.mp4`, `model_{u}.glb`);
`other` covers any file name not produced by the service. -/
inductive FName : Type
  | person (u : Nat)
  | style (u : Nat)
  | input (u : Nat)
  | generatedToy (u : Nat)
  | modelPly (u : Nat)
  | preview (u : Nat)
  | modelGlb (u : Nat)
  | other (s : String)
deriving DecidableEq, Repr

/-- The uuid token embedded in a service-generated file name, if any. -/
def FName.idOf : FName → Option Nat
  | .person u => some u
  | .style u => some u
  | .input u => some u
  | .generatedToy u => some u
  | .modelPly u => some u
  | .preview u => some u
  | .modelGlb u => some u
  | .other _ => none

/-- A file path: a directory plus a file name. -/
structure FPath : Type where
  dir : Dir
  name : FName
deriving DecidableEq, Repr

/-- One filesystem entry: its path, modification time (seconds), whether it is
a regular file (`Path.is_file()`), and its byte content. -/
structure FileEntry : Type where
  path : FPath
  mtime : Int
  isFile : Bool
  content : String
deriving DecidableEq, Repr

/-- The local filesystem state: the list of entries currently present. -/
abbrev FS := List FileEntry

/-- Whether some entry with path `p` is present. -/
def pathExists (fs : FS) (p : FPath) : Bool :=
  fs.any (fun e => e.path == p)

/-- Model of `open(p, "wb"); f.write(content)`: overwrite any entry at `p` with a fresh
regular file stamped `now`. -/
def writeFS (fs : FS) (p : FPath) (now : Int) (content : String) : FS :=
  fs.filter (fun e => !(e.path == p)) ++ [⟨p, now, true, content⟩]

/-- Model of `p.unlink()` guarded by `p.exists()` with errors suppressed: remove every
entry at `p` (a no-op when absent). -/
def unlinkFS (fs : FS) (p : FPath) : FS :=
  fs.filter (fun e => !(e.path == p))

/-- Delete a list of scratch paths in order (the `finally` loops). -/
def unlinkAllFS (fs : FS) (ps : List FPath) : FS :=
  ps.foldl unlinkFS fs

/-! ## Retention sweeper (`DELETE /cleanup`, `cleanup_files`) -/

/-- The sweeper `cleanup_files` deletes an entry iff it lies in `OUTPUT_DIR` or
`TEMP_DIR`, is a regular file, and `current_time - st_mtime > 3600`. -/
def sweepable (now : Int) (e : FileEntry) : Bool :=
  (e.path.dir == Dir.outputs || e.path.dir == Dir.temp)
    && e.isFile && decide (now - e.mtime > 3600)

/-- The `cleanup_files` endpoint: scan `OUTPUT_DIR` and `TEMP_DIR`, unlink
every regular file older than one hour, and count deletions.  Returns the
remaining filesystem and the count reported in the response message. -/
def cleanup_files (now : Int) (fs : FS) : FS × Nat :=
  (fs.filter (fun e => !sweepable now e), (fs.filter (fun e => sweepable now e)).length)

/-! ## Service state, oracle, and model-call trace -/

/-- One external model/pipeline call, as recorded in the trace. -/
inductive Call : Type
  | visionPerson (image_path : FPath)
  | visionStyle (image_path : FPath)
  | imageGen (prompt : String) (image_path : FPath)
  | trellisRun (image_path : FPath) (formats : List String)
deriving DecidableEq, Repr

/-- The state threaded through a request: the filesystem, the fresh-uuid
counter, and the trace of external calls made so far. -/
structure St : Type where
  fs : FS
  sup : Nat
  calls : List Call
deriving DecidableEq, Repr

/-- Write a file (`open(p, "wb")` + `write`). -/
def St.write (σ : St) (p : FPath) (now : Int) (content : String) : St :=
  { σ with fs := writeFS σ.fs p now content }

/-- Draw a fresh uuid token (`uuid.uuid4()`, fresh-supply model). -/
def St.fresh (σ : St) : Nat × St :=
  (σ.sup, { σ with sup := σ.sup + 1 })

/-- Record an external model call. -/
def St.call (σ : St) (c : Call) : St :=
  { σ with calls := σ.calls ++ [c] }

/-- Model of `fastapi.HTTPException`: status code and detail message. -/
structure HTTPErr : Type where
  status : Nat
  detail : String
deriving DecidableEq, Repr

/-- Starlette's string rendering of an `HTTPException` (its `__str__`). -/
def HTTPErr.str (e : HTTPErr) : String :=
  toString e.status ++ ": " ++ e.detail

/-- One part of the generation response (`response.candidates[0].content.parts`). -/
structure Part : Type where
  inline_data : Option String
deriving DecidableEq, Repr

/-- The dictionary of representations returned by `trellis_pipeline.run`; a
key is truthy under `outputs.get(k)` iff its list is nonempty. -/
structure PipelineOutputs : Type where
  gaussian : List String
  mesh : List String
deriving DecidableEq, Repr

/-- Fixed outcomes of the external services for one request: each `Except`
field is the value returned by — or the exception message raised by — the
corresponding remote call, and `glbExportOk` says whether the GLB export
(`postprocessing_utils.to_glb` / `glb.export`) succeeds. -/
structure Oracle : Type where
  personAnalysis : Except String String
  styleAnalysis : Except String String
  genParts : Except String (List Part)
  trellisRun : Except String PipelineOutputs
  glbExportOk : Bool
deriving Repr

/-- A multipart file upload: declared media type and raw content. -/
structure Upload : Type where
  content_type : String
  content : String
deriving DecidableEq, Repr

/-! ## Vision describer, prompt composer, image synthesizer -/

/-- Python's `str.startswith`, modelled over the character list (Lean's
built-in `String.startsWith` is irreducible for the kernel). -/
def strStartsWith (s p : String) : Bool :=
  p.data.isPrefixOf s.data

/-- Model of `response.text.strip().replace('\n', ' ')`, modelled over the character
list: trim whitespace at both ends, then replace each newline (the pattern is
a single character) by a space. -/
def descClean (s : String) : String :=
  ⟨((s.data.dropWhile Char.isWhitespace).reverse.dropWhile
      Char.isWhitespace).reverse.map (fun ch => if ch = '\n' then ' ' else ch)⟩

/-- Model of `ToyGenerationService.analyze_person_image`: call the vision model on the
person image; any failure is re-raised as a 500 carrying the message. -/
def analyze_person_image (env : Oracle) (image_path : FPath) (σ : St) :
    Except HTTPErr String × St :=
  let σ := σ.call (Call.visionPerson image_path)
  match env.personAnalysis with
  | Except.error m => (Except.error ⟨500, "Error analyzing person image: " ++ m⟩, σ)
  | Except.ok t => (Except.ok (descClean t), σ)

/-- Model of `ToyGenerationService.analyze_toy_style`: likewise for the style guide. -/
def analyze_toy_style (env : Oracle) (image_path : FPath) (σ : St) :
    Except HTTPErr String × St :=
  let σ := σ.call (Call.visionStyle image_path)
  match env.styleAnalysis with
  | Except.error m => (Except.error ⟨500, "Error analyzing toy style: " ++ m⟩, σ)
  | Except.ok t => (Except.ok (descClean t), σ)

/-- The enriched-prompt template built inside `generate_toy_image`
(`final_prompt = f"{user_prompt}. The main character of the figure should be
based on a person with these features: **({content_desc})**. The overall
artistic look and feel of the toy should match this style: **({style_desc})**."`). -/
def composePrompt (user_prompt content_desc style_desc : String) : String :=
  user_prompt ++ ". " ++
    "The main character of the figure should be based on a person with these features: **(" ++
    content_desc ++ ")**. " ++
    "The overall artistic look and feel of the toy should match this style: **(" ++
    style_desc ++ ")**."

/-- Model of `ToyGenerationService.generate_toy_image`: compose the enriched prompt,
call the image-generation model, persist the first inline image payload under
a fresh uuid, and return its path.  When no part carries inline data, the
inner `HTTPException(500, "Model did not return an image")` is raised — and
immediately caught by this same function's `except Exception` clause, which
re-wraps its string rendering; a failed call is wrapped the same way. -/
def generate_toy_image (env : Oracle) (user_prompt content_desc style_desc : String)
    (person_image_path : FPath) (now : Int) (σ : St) : Except HTTPErr FPath × St :=
  let final_prompt := composePrompt user_prompt content_desc style_desc
  let σ := σ.call (Call.imageGen final_prompt person_image_path)
  match env.genParts with
  | Except.error m => (Except.error ⟨500, "Error generating toy image: " ++ m⟩, σ)
  | Except.ok parts =>
    match parts.find? (fun p => p.inline_data.isSome) with
    | some part =>
      let (unique_id, σ) := σ.fresh
      let output_path : FPath := ⟨Dir.outputs, FName.generatedToy unique_id⟩
      let σ := σ.write output_path now (part.inline_data.getD "")
      (Except.ok output_path, σ)
    | none =>
      (Except.error
        ⟨500, "Error generating toy image: " ++
          HTTPErr.str ⟨500, "Model did not return an image"⟩⟩, σ)

/-! ## 3D reconstructor -/

/-- The dictionary returned by `generate_3d_model`; `model_id` is the
generation's `str(uuid.uuid4())`, modelled as the uuid token. -/
structure ModelResult : Type where
  success : Bool
  model_id : Nat
  files : List (String × FPath)
  formats : List String
deriving DecidableEq, Repr

/-- The format list `generate_3d_model` selects from `output_format`. -/
def selectFormats (output_format : String) : List String :=
  if output_format = "all" then ["gaussian", "radiance_field", "mesh"]
  else [output_format]

/-- Model of `ToyGenerationService.generate_3d_model`: run the Trellis pipeline on the
image, then persist outputs per requested format — a PLY point cloud plus a
preview video when a gaussian output exists, and (inside its own
`try`/`except`) a GLB when a mesh output exists; a GLB export failure is only
logged.  Any pipeline failure is wrapped into a 500. -/
def generate_3d_model (env : Oracle) (image_path : FPath) (output_format : String)
    (now : Int) (σ : St) : Except HTTPErr ModelResult × St :=
  let formats := selectFormats output_format
  let σ := σ.call (Call.trellisRun image_path formats)
  match env.trellisRun with
  | Except.error m => (Except.error ⟨500, "Error generating 3D model: " ++ m⟩, σ)
  | Except.ok outputs =>
    let (unique_id, σ) := σ.fresh
    let gaussianStep : List (String × FPath) × St :=
      if formats.contains "gaussian" && !outputs.gaussian.isEmpty then
        let ply_path : FPath := ⟨Dir.outputs, FName.modelPly unique_id⟩
        let σ := σ.write ply_path now (outputs.gaussian.headD "")
        let video_path : FPath := ⟨Dir.outputs, FName.preview unique_id⟩
        let σ := σ.write video_path now ("render:" ++ outputs.gaussian.headD "")
        ([("ply", ply_path), ("preview_video", video_path)], σ)
      else ([], σ)
    let σ := gaussianStep.2
    let meshStep : List (String × FPath) × St :=
      if formats.contains "mesh" && !outputs.mesh.isEmpty then
        if env.glbExportOk then
          let glb_path : FPath := ⟨Dir.outputs, FName.modelGlb unique_id⟩
          let σ := σ.write glb_path now ("glb:" ++ outputs.mesh.headD "")
          ([("glb", glb_path)], σ)
        else ([], σ)
      else ([], σ)
    let σ := meshStep.2
    (Except.ok ⟨true, unique_id, gaussianStep.1 ++ meshStep.1, formats⟩, σ)

/-! ## HTTP endpoints -/

/-- The JSON body returned by `POST /generate-toy`. -/
structure ToyResponse : Type where
  success : Bool
  message : String
  person_description : String
  style_description : String
  toy_image : FPath
  model_result : ModelResult
deriving DecidableEq, Repr

/-- The JSON body returned by `POST /generate-image-only`. -/
structure ImageOnlyResponse : Type where
  success : Bool
  toy_image : FPath
  person_description : String
  style_description : String
deriving DecidableEq, Repr

/-- The `try` block of `generate_toy_endpoint`: content-type validation, then
scratch writes and the four model calls.  Also returns the scratch paths
collected in `temp_files`, for the `finally` clause. -/
def generate_toy_body (env : Oracle) (person_image style_guide : Upload)
    (prompt output_format : String) (now : Int) (σ : St) :
    Except HTTPErr ToyResponse × List FPath × St :=
  if !(strStartsWith person_image.content_type "image/") then
    (Except.error ⟨400, "Person file must be an image"⟩, [], σ)
  else if !(strStartsWith style_guide.content_type "image/") then
    (Except.error ⟨400, "Style guide file must be an image"⟩, [], σ)
  else
    let (pid, σ) := σ.fresh
    let person_temp_path : FPath := ⟨Dir.temp, FName.person pid⟩
    let (sid, σ) := σ.fresh
    let style_temp_path : FPath := ⟨Dir.temp, FName.style sid⟩
    let temp_files := [person_temp_path, style_temp_path]
    let σ := σ.write person_temp_path now person_image.content
    let σ := σ.write style_temp_path now style_guide.content
    match analyze_person_image env person_temp_path σ with
    | (Except.error e, σ) => (Except.error e, temp_files, σ)
    | (Except.ok person_description, σ) =>
      match analyze_toy_style env style_temp_path σ with
      | (Except.error e, σ) => (Except.error e, temp_files, σ)
      | (Except.ok style_description, σ) =>
        match generate_toy_image env prompt person_description style_description
            person_temp_path now σ with
        | (Except.error e, σ) => (Except.error e, temp_files, σ)
        | (Except.ok toy_image_path, σ) =>
          match generate_3d_model env toy_image_path output_format now σ with
          | (Except.error e, σ) => (Except.error e, temp_files, σ)
          | (Except.ok model_result, σ) =>
            (Except.ok ⟨true, "Toy generation completed successfully",
              person_description, style_description, toy_image_path, model_result⟩,
              temp_files, σ)

/-- Endpoint `POST /generate-toy`: the body above, then the `finally` clause deleting
every scratch file named by the request (errors suppressed). -/
def generate_toy_endpoint (env : Oracle) (person_image style_guide : Upload)
    (prompt output_format : String) (now : Int) (σ : St) :
    Except HTTPErr ToyResponse × St :=
  match generate_toy_body env person_image style_guide prompt output_format now σ with
  | (res, temp_files, σ) => (res, { σ with fs := unlinkAllFS σ.fs temp_files })

/-- The `try` block of `generate_image_only`: no content-type validation —
the uploads are written to scratch and the three model calls run directly. -/
def generate_image_only_body (env : Oracle) (person_image style_guide : Upload)
    (prompt : String) (now : Int) (σ : St) :
    Except HTTPErr ImageOnlyResponse × List FPath × St :=
  let (pid, σ) := σ.fresh
  let person_temp_path : FPath := ⟨Dir.temp, FName.person pid⟩
  let (sid, σ) := σ.fresh
  let style_temp_path : FPath := ⟨Dir.temp, FName.style sid⟩
  let temp_files := [person_temp_path, style_temp_path]
  let σ := σ.write person_temp_path now person_image.content
  let σ := σ.write style_temp_path now style_guide.content
  match analyze_person_image env person_temp_path σ with
  | (Except.error e, σ) => (Except.error e, temp_files, σ)
  | (Except.ok person_desc, σ) =>
    match analyze_toy_style env style_temp_path σ with
    | (Except.error e, σ) => (Except.error e, temp_files, σ)
    | (Except.ok style_desc, σ) =>
      match generate_toy_image env prompt person_desc style_desc
          person_temp_path now σ with
      | (Except.error e, σ) => (Except.error e, temp_files, σ)
      | (Except.ok toy_image_path, σ) =>
        (Except.ok ⟨true, toy_image_path, person_desc, style_desc⟩, temp_files, σ)

/-- Endpoint `POST /generate-image-only`: body plus the `finally` clause. -/
def generate_image_only (env : Oracle) (person_image style_guide : Upload)
    (prompt : String) (now : Int) (σ : St) :
    Except HTTPErr ImageOnlyResponse × St :=
  match generate_image_only_body env person_image style_guide prompt now σ with
  | (res, temp_files, σ) => (res, { σ with fs := unlinkAllFS σ.fs temp_files })

/-- The `try` block of `image_to_3d`: no content-type validation — the upload
is written to scratch and fed to `generate_3d_model` directly. -/
def image_to_3d_body (env : Oracle) (image : Upload) (output_format : String)
    (now : Int) (σ : St) :
    Except HTTPErr ModelResult × List FPath × St :=
  let (iid, σ) := σ.fresh
  let temp_path : FPath := ⟨Dir.temp, FName.input iid⟩
  let σ := σ.write temp_path now image.content
  match generate_3d_model env temp_path output_format now σ with
  | (res, σ) => (res, [temp_path], σ)

/-- Endpoint `POST /image-to-3d`: body plus the `finally` clause. -/
def image_to_3d (env : Oracle) (image : Upload) (output_format : String)
    (now : Int) (σ : St) : Except HTTPErr ModelResult × St :=
  match image_to_3d_body env image output_format now σ with
  | (res, temp_files, σ) => (res, { σ with fs := unlinkAllFS σ.fs temp_files })

/-! ## Auxiliary predicates used by the theorems -/

/-- An entry whose embedded uuid token (if any) predates the counter: such an
entry can never collide with a freshly generated path. -/
def entryFresh (e : FileEntry) (sup : Nat) : Prop :=
  ∀ i : Nat, e.path.name.idOf = some i → i < sup

/-- Every entry of the filesystem is `entryFresh`. -/
def fsFresh (fs : FS) (sup : Nat) : Prop :=
  ∀ e ∈ fs, entryFresh e sup

/-- Modelled from the spec (§4.5 post-processing): the 3D output format each
result-file kind belongs to — the PLY point cloud and the preview video come
from the gaussian representation, the GLB archive from the mesh. -/
def kindFormat : String → Option String
  | "ply" => some "gaussian"
  | "preview_video" => some "gaussian"
  | "glb" => some "mesh"
  | _ => none

/-! ## Concrete sample inputs, used to instantiate the theorems -/

/-- A benign oracle: every external call succeeds, the generation response
carries one inline image, the pipeline returns a gaussian and a mesh output,
and the GLB export works. -/
def sampleOracle : Oracle :=
  ⟨Except.ok "a person", Except.ok "a style", Except.ok [⟨some "IMGDATA"⟩],
   Except.ok ⟨["g0"], ["m0"]⟩, true⟩

/-- The empty initial state: no files, counter at zero, no calls yet. -/
def emptySt : St := ⟨[], 0, []⟩

/-- A well-typed image upload. -/
def sampleImageUpload : Upload := ⟨"image/png", "img-bytes"⟩

/-- An upload whose declared media type is not an image. -/
def sampleTextUpload : Upload := ⟨"text/plain", "notanimage"⟩

end ToyService

namespace ToyService

/-- The sweeper's deletion condition, unfolded to a proposition. -/
theorem sweepable_iff (now : Int) (e : FileEntry) :
    sweepable now e = true ↔
      (e.path.dir = Dir.outputs ∨ e.path.dir = Dir.temp) ∧
        e.isFile = true ∧ now - e.mtime > 3600 := by
  simp [sweepable, and_assoc]

/-- Negated form of `sweepable_iff`. -/
theorem sweepable_eq_false_iff (now : Int) (e : FileEntry) :
    sweepable now e = false ↔
      ¬((e.path.dir = Dir.outputs ∨ e.path.dir = Dir.temp) ∧
         e.isFile = true ∧ now - e.mtime > 3600) := by
  rw [← Bool.not_eq_true, sweepable_iff]

/-- C6. On invocation the retention sweeper keeps exactly the entries that
are not (regular ∧ in outputs/temp ∧ strictly older than 3600 s): an entry
survives iff it was present and fails one of those three conditions, every
newer or out-of-scope file is untouched, and the returned count plus the
number of survivors is the total number of entries. -/
theorem cleanup_files_spec (now : Int) (fs : FS) :
    (∀ e : FileEntry,
      (e ∈ (cleanup_files now fs).1 ↔
        e ∈ fs ∧
          ¬((e.path.dir = Dir.outputs ∨ e.path.dir = Dir.temp) ∧
             e.isFile = true ∧ now - e.mtime > 3600)))
    ∧ (cleanup_files now fs).1.length + (cleanup_files now fs).2 = fs.length := by
  constructor
  · intro e
    simp only [cleanup_files, List.mem_filter, Bool.not_eq_true', sweepable_eq_false_iff]
  · simp only [cleanup_files]
    have h := List.length_eq_length_filter_add (l := fs) (fun e => sweepable now e)
    omega

/-- C9. Running the sweeper again right after a pass, with no files created
in between, is idempotent: the second invocation deletes zero files and leaves
the directories exactly as the first pass left them. -/
theorem cleanup_files_idempotent (now : Int) (fs : FS) :
    cleanup_files now (cleanup_files now fs).1 = ((cleanup_files now fs).1, 0) := by
  simp only [cleanup_files, List.filter_filter, Prod.mk.injEq]
  constructor
  · simp only [Bool.and_self]
  · simp only [Bool.and_not_self, List.filter_false, List.length_nil]

/-! ## Filesystem lemmas -/

/-- Writing preserves every entry at a different path. -/
theorem mem_writeFS_of_ne {e : FileEntry} {fs : FS} (p : FPath) (now : Int) (c : String)
    (he : e ∈ fs) (hne : e.path ≠ p) : e ∈ writeFS fs p now c := by
  simp only [writeFS, List.mem_append, List.mem_filter, Bool.not_eq_true',
    beq_eq_false_iff_ne, ne_eq]
  exact Or.inl ⟨he, hne⟩

/-- Unlinking preserves every entry at a different path. -/
theorem mem_unlinkFS_of_ne {e : FileEntry} {fs : FS} (p : FPath)
    (he : e ∈ fs) (hne : e.path ≠ p) : e ∈ unlinkFS fs p := by
  simp only [unlinkFS, List.mem_filter, Bool.not_eq_true', beq_eq_false_iff_ne, ne_eq]
  exact ⟨he, hne⟩

/-- Unlinking a list of paths preserves every entry at other paths. -/
theorem mem_unlinkAllFS_of_ne {e : FileEntry} {fs : FS} (ps : List FPath)
    (he : e ∈ fs) (hne : ∀ p ∈ ps, e.path ≠ p) : e ∈ unlinkAllFS fs ps := by
  induction ps generalizing fs with
  | nil => exact he
  | cons q ps ih =>
    exact ih (mem_unlinkFS_of_ne q he (hne q (List.mem_cons_self q ps)))
      (fun p hp => hne p (List.mem_cons_of_mem q hp))

/-- After unlinking a path, it is absent. -/
theorem pathExists_unlinkFS_self (fs : FS) (p : FPath) :
    pathExists (unlinkFS fs p) p = false := by
  rw [← Bool.not_eq_true, pathExists, List.any_eq_true]
  rintro ⟨e, he, hep⟩
  simp only [unlinkFS, List.mem_filter, Bool.not_eq_true', beq_eq_false_iff_ne, ne_eq] at he
  exact he.2 (by simpa using hep)

/-- Unlinking never makes a path appear. -/
theorem pathExists_unlinkFS_mono (fs : FS) (q p : FPath)
    (h : pathExists fs p = false) : pathExists (unlinkFS fs q) p = false := by
  rw [← Bool.not_eq_true, pathExists, List.any_eq_true]
  rintro ⟨e, he, hep⟩
  rw [← Bool.not_eq_true, pathExists, List.any_eq_true] at h
  exact h ⟨e, (List.mem_filter.mp he).1, hep⟩

/-- Absence of a path is preserved by unlinking any list of paths. -/
theorem pathExists_unlinkAllFS_mono (fs : FS) (ps : List FPath) (p : FPath)
    (h : pathExists fs p = false) : pathExists (unlinkAllFS fs ps) p = false := by
  induction ps generalizing fs with
  | nil => exact h
  | cons q ps ih => exact ih (unlinkFS fs q) (pathExists_unlinkFS_mono fs q p h)

/-- Every path in the deleted list is absent after `unlinkAllFS`. -/
theorem pathExists_unlinkAllFS (fs : FS) (ps : List FPath) (p : FPath) (hp : p ∈ ps) :
    pathExists (unlinkAllFS fs ps) p = false := by
  induction ps generalizing fs with
  | nil => cases hp
  | cons q ps ih =>
    rcases List.mem_cons.mp hp with h | h
    · subst h
      exact pathExists_unlinkAllFS_mono (unlinkFS fs p) ps p (pathExists_unlinkFS_self fs p)
    · exact ih (unlinkFS fs q) h

/-! ## Freshness lemmas -/

/-- Freshness is monotone in the counter. -/
theorem entryFresh_mono {e : FileEntry} {s t : Nat} (h : entryFresh e s) (hst : s ≤ t) :
    entryFresh e t := fun i hi => lt_of_lt_of_le (h i hi) hst

/-- A fresh entry's path differs from any path whose name embeds a token at or
above the counter. -/
theorem entryFresh_ne {e : FileEntry} {s i : Nat} (h : entryFresh e s) (hi : s ≤ i)
    (d : Dir) (n : FName) (hn : n.idOf = some i) : e.path ≠ ⟨d, n⟩ := by
  intro hp
  have : e.path.name.idOf = some i := by rw [hp]; exact hn
  exact absurd (h i this) (by omega)

/-! ## Branch characterizations of the service helpers -/

/-- The state after `analyze_person_image` is exactly the input state plus the
recorded vision call, on both branches. -/
theorem analyze_person_image_snd (env : Oracle) (p : FPath) (σ : St) :
    (analyze_person_image env p σ).2 = σ.call (Call.visionPerson p) := by
  unfold analyze_person_image
  cases env.personAnalysis <;> rfl

/-- Likewise for `analyze_toy_style`. -/
theorem analyze_toy_style_snd (env : Oracle) (p : FPath) (σ : St) :
    (analyze_toy_style env p σ).2 = σ.call (Call.visionStyle p) := by
  unfold analyze_toy_style
  cases env.styleAnalysis <;> rfl

/-- Branch of `generate_toy_image` when the generation call raises. -/
theorem generate_toy_image_err (env : Oracle) (u c s : String) (p : FPath) (now : Int)
    (σ : St) (m : String) (h : env.genParts = Except.error m) :
    generate_toy_image env u c s p now σ =
      (Except.error ⟨500, "Error generating toy image: " ++ m⟩,
       σ.call (Call.imageGen (composePrompt u c s) p)) := by
  unfold generate_toy_image
  rw [h]

/-- Branch of `generate_toy_image` when the response has no inline image part. -/
theorem generate_toy_image_none (env : Oracle) (u c s : String) (p : FPath) (now : Int)
    (σ : St) (parts : List Part) (h : env.genParts = Except.ok parts)
    (hf : parts.find? (fun q => q.inline_data.isSome) = none) :
    generate_toy_image env u c s p now σ =
      (Except.error
        ⟨500, "Error generating toy image: " ++
          HTTPErr.str ⟨500, "Model did not return an image"⟩⟩,
       σ.call (Call.imageGen (composePrompt u c s) p)) := by
  unfold generate_toy_image
  rw [h]
  simp only [hf]

/-- Branch of `generate_toy_image` when an inline image part exists: the first one is
persisted under a fresh uuid in the output directory. -/
theorem generate_toy_image_some (env : Oracle) (u c s : String) (p : FPath) (now : Int)
    (σ : St) (parts : List Part) (part : Part) (h : env.genParts = Except.ok parts)
    (hf : parts.find? (fun q => q.inline_data.isSome) = some part) :
    generate_toy_image env u c s p now σ =
      (Except.ok ⟨Dir.outputs, FName.generatedToy σ.sup⟩,
       ⟨writeFS σ.fs ⟨Dir.outputs, FName.generatedToy σ.sup⟩ now (part.inline_data.getD ""),
        σ.sup + 1,
        σ.calls ++ [Call.imageGen (composePrompt u c s) p]⟩) := by
  unfold generate_toy_image
  rw [h]
  simp only [hf, St.call, St.fresh, St.write]

/-- Branch of `generate_3d_model` when the pipeline raises. -/
theorem generate_3d_model_err (env : Oracle) (p : FPath) (fmt : String) (now : Int)
    (σ : St) (m : String) (h : env.trellisRun = Except.error m) :
    generate_3d_model env p fmt now σ =
      (Except.error ⟨500, "Error generating 3D model: " ++ m⟩,
       σ.call (Call.trellisRun p (selectFormats fmt))) := by
  unfold generate_3d_model
  rw [h]

/-- Branch of `analyze_person_image` when the model call raises. -/
theorem analyze_person_image_err (env : Oracle) (p : FPath) (σ : St) (m : String)
    (h : env.personAnalysis = Except.error m) :
    analyze_person_image env p σ =
      (Except.error ⟨500, "Error analyzing person image: " ++ m⟩,
       σ.call (Call.visionPerson p)) := by
  unfold analyze_person_image
  rw [h]

/-- Branch of `analyze_person_image` when the model call returns text. -/
theorem analyze_person_image_ok (env : Oracle) (p : FPath) (σ : St) (t : String)
    (h : env.personAnalysis = Except.ok t) :
    analyze_person_image env p σ =
      (Except.ok (descClean t), σ.call (Call.visionPerson p)) := by
  unfold analyze_person_image
  rw [h]

/-- Branch of `analyze_toy_style` when the model call raises. -/
theorem analyze_toy_style_err (env : Oracle) (p : FPath) (σ : St) (m : String)
    (h : env.styleAnalysis = Except.error m) :
    analyze_toy_style env p σ =
      (Except.error ⟨500, "Error analyzing toy style: " ++ m⟩,
       σ.call (Call.visionStyle p)) := by
  unfold analyze_toy_style
  rw [h]

/-- Branch of `analyze_toy_style` when the model call returns text. -/
theorem analyze_toy_style_ok (env : Oracle) (p : FPath) (σ : St) (t : String)
    (h : env.styleAnalysis = Except.ok t) :
    analyze_toy_style env p σ =
      (Except.ok (descClean t), σ.call (Call.visionStyle p)) := by
  unfold analyze_toy_style
  rw [h]

/-- Helper `generate_toy_image` never decreases the uuid counter. -/
theorem generate_toy_image_sup_le (env : Oracle) (u c s : String) (p : FPath) (now : Int)
    (σ : St) : σ.sup ≤ ((generate_toy_image env u c s p now σ).2).sup := by
  unfold generate_toy_image
  cases h : env.genParts with
  | error m => simp [St.call]
  | ok parts =>
    cases hf : parts.find? (fun q => q.inline_data.isSome) with
    | none => simp [hf, St.call]
    | some part => simp [hf, St.call, St.fresh, St.write]

/-- Helper `generate_toy_image` preserves every entry whose token predates the
counter: its only write targets a freshly drawn output path. -/
theorem generate_toy_image_preserves {e : FileEntry} (env : Oracle) (u c s : String)
    (p : FPath) (now : Int) (σ : St) (hfr : entryFresh e σ.sup) (he : e ∈ σ.fs) :
    e ∈ ((generate_toy_image env u c s p now σ).2).fs := by
  unfold generate_toy_image
  cases h : env.genParts with
  | error m => simpa [St.call] using he
  | ok parts =>
    cases hfind : parts.find? (fun q => q.inline_data.isSome) with
    | none => simpa [hfind, St.call] using he
    | some part =>
      simp only [hfind, St.call, St.fresh, St.write]
      exact mem_writeFS_of_ne _ now _ he (entryFresh_ne hfr (le_refl _) _ _ rfl)

/-- Helper `generate_3d_model` never decreases the uuid counter. -/
theorem generate_3d_model_sup_le (env : Oracle) (p : FPath) (fmt : String) (now : Int)
    (σ : St) : σ.sup ≤ ((generate_3d_model env p fmt now σ).2).sup := by
  unfold generate_3d_model
  cases h : env.trellisRun with
  | error m => simp [St.call]
  | ok outputs =>
    simp only [St.call, St.fresh, St.write]
    repeat' split
    all_goals simp

/-- Helper `generate_3d_model` preserves every entry whose token predates the
counter: all its writes target paths embedding the freshly drawn uuid. -/
theorem generate_3d_model_preserves {e : FileEntry} (env : Oracle) (p : FPath)
    (fmt : String) (now : Int) (σ : St) (hfr : entryFresh e σ.sup) (he : e ∈ σ.fs) :
    e ∈ ((generate_3d_model env p fmt now σ).2).fs := by
  unfold generate_3d_model
  cases h : env.trellisRun with
  | error m => simpa [St.call] using he
  | ok outputs =>
    have h1 : e.path ≠ ⟨Dir.outputs, FName.modelPly σ.sup⟩ :=
      entryFresh_ne hfr (le_refl _) _ _ rfl
    have h2 : e.path ≠ ⟨Dir.outputs, FName.preview σ.sup⟩ :=
      entryFresh_ne hfr (le_refl _) _ _ rfl
    have h3 : e.path ≠ ⟨Dir.outputs, FName.modelGlb σ.sup⟩ :=
      entryFresh_ne hfr (le_refl _) _ _ rfl
    simp only [St.call, St.fresh, St.write]
    repeat' split
    all_goals
      repeat'
        first
        | exact he
        | assumption
        | apply mem_writeFS_of_ne

/-! ## State evolution of the endpoint bodies -/

/-- State evolution of the `/generate-toy` body: the uuid counter never
decreases, every entry whose token predates the initial counter survives, and
every scratch path named by the request embeds a token drawn at or after the
initial counter. -/
theorem generate_toy_body_state (env : Oracle) (pi sg : Upload) (pr fmt : String)
    (now : Int) (σ : St) :
    σ.sup ≤ ((generate_toy_body env pi sg pr fmt now σ).2.2).sup ∧
    (∀ e : FileEntry, entryFresh e σ.sup → e ∈ σ.fs →
        e ∈ ((generate_toy_body env pi sg pr fmt now σ).2.2).fs) ∧
    (∀ p ∈ (generate_toy_body env pi sg pr fmt now σ).2.1,
        ∃ i, p.name.idOf = some i ∧ σ.sup ≤ i) := by
  unfold generate_toy_body
  split
  · exact ⟨le_refl _, fun e _ he => he, fun p hp => absurd hp (List.not_mem_nil p)⟩
  split
  · exact ⟨le_refl _, fun e _ he => he, fun p hp => absurd hp (List.not_mem_nil p)⟩
  cases hP : env.personAnalysis <;>
  cases hS : env.styleAnalysis <;>
  cases hG : env.genParts <;>
  cases hT : env.trellisRun <;>
  first
    | (cases hFind : List.find? (fun q => q.inline_data.isSome) ‹List Part› <;>
        simp only [analyze_person_image, analyze_toy_style, generate_toy_image,
          generate_3d_model, hP, hS, hG, hT, hFind, St.call, St.fresh, St.write])
    | simp only [analyze_person_image, analyze_toy_style, generate_toy_image,
        generate_3d_model, hP, hS, hG, hT, St.call, St.fresh, St.write]
  all_goals repeat' split
  all_goals try dsimp only
  all_goals refine ⟨?_, fun e hf he => ?_, fun p hp => ?_⟩
  all_goals try omega
  all_goals
    try (repeat'
      first
      | exact he
      | apply mem_writeFS_of_ne
      | exact entryFresh_ne hf (by omega) _ _ rfl)
  all_goals
    simp only [List.mem_cons, List.not_mem_nil, or_false] at hp
  all_goals rcases hp with rfl | rfl
  all_goals exact ⟨_, rfl, by omega⟩

/-- State evolution of the `/generate-image-only` body; additionally, the
trace records the person-image vision call, whatever the oracle does. -/
theorem generate_image_only_body_state (env : Oracle) (pi sg : Upload) (pr : String)
    (now : Int) (σ : St) :
    σ.sup ≤ ((generate_image_only_body env pi sg pr now σ).2.2).sup ∧
    (∀ e : FileEntry, entryFresh e σ.sup → e ∈ σ.fs →
        e ∈ ((generate_image_only_body env pi sg pr now σ).2.2).fs) ∧
    (∀ p ∈ (generate_image_only_body env pi sg pr now σ).2.1,
        ∃ i, p.name.idOf = some i ∧ σ.sup ≤ i) ∧
    (Call.visionPerson ⟨Dir.temp, FName.person σ.sup⟩
        ∈ ((generate_image_only_body env pi sg pr now σ).2.2).calls) := by
  unfold generate_image_only_body
  cases hP : env.personAnalysis <;>
  cases hS : env.styleAnalysis <;>
  cases hG : env.genParts <;>
  first
    | (cases hFind : List.find? (fun q => q.inline_data.isSome) ‹List Part› <;>
        simp only [analyze_person_image, analyze_toy_style, generate_toy_image,
          hP, hS, hG, hFind, St.call, St.fresh, St.write])
    | simp only [analyze_person_image, analyze_toy_style, generate_toy_image,
        hP, hS, hG, St.call, St.fresh, St.write]
  all_goals refine ⟨?_, fun e hf he => ?_, fun p hp => ?_, by simp⟩
  all_goals try omega
  all_goals
    try (repeat'
      first
      | exact he
      | apply mem_writeFS_of_ne
      | exact entryFresh_ne hf (by omega) _ _ rfl)
  all_goals
    simp only [List.mem_cons, List.not_mem_nil, or_false] at hp
  all_goals rcases hp with rfl | rfl
  all_goals exact ⟨_, rfl, by omega⟩

/-- State evolution of the `/image-to-3d` body; additionally, the trace
records the pipeline call on the scratch path, whatever the oracle does. -/
theorem image_to_3d_body_state (env : Oracle) (img : Upload) (fmt : String)
    (now : Int) (σ : St) :
    σ.sup ≤ ((image_to_3d_body env img fmt now σ).2.2).sup ∧
    (∀ e : FileEntry, entryFresh e σ.sup → e ∈ σ.fs →
        e ∈ ((image_to_3d_body env img fmt now σ).2.2).fs) ∧
    (∀ p ∈ (image_to_3d_body env img fmt now σ).2.1,
        ∃ i, p.name.idOf = some i ∧ σ.sup ≤ i) ∧
    (Call.trellisRun ⟨Dir.temp, FName.input σ.sup⟩ (selectFormats fmt)
        ∈ ((image_to_3d_body env img fmt now σ).2.2).calls) := by
  unfold image_to_3d_body
  cases hT : env.trellisRun <;>
    simp only [generate_3d_model, hT, St.call, St.fresh, St.write]
  all_goals repeat' split
  all_goals try dsimp only
  all_goals refine ⟨?_, fun e hf he => ?_, fun p hp => ?_, by simp⟩
  all_goals try omega
  all_goals
    try (repeat'
      first
      | exact he
      | apply mem_writeFS_of_ne
      | exact entryFresh_ne hf (by omega) _ _ rfl)
  all_goals
    simp only [List.mem_cons, List.not_mem_nil, or_false] at hp
  all_goals rcases hp with rfl
  all_goals exact ⟨_, rfl, by omega⟩

/-! ## Success-case characterizations of the 3D reconstructor -/

/-- An entry of a written filesystem was present before or sits at the
written path. -/
theorem mem_writeFS_elim {e : FileEntry} {fs : FS} {p : FPath} {now : Int} {c : String}
    (h : e ∈ writeFS fs p now c) : e ∈ fs ∨ e.path = p := by
  simp only [writeFS, List.mem_append, List.mem_filter, List.mem_singleton] at h
  rcases h with ⟨he, -⟩ | rfl
  · exact Or.inl he
  · exact Or.inr rfl

/-- On success, `generate_3d_model` reports success, a freshly drawn model
identifier, a bumped counter, and the selected format list. -/
theorem generate_3d_model_ok_core (env : Oracle) (p : FPath) (fmt : String)
    (now : Int) (σ : St) (r : ModelResult) (σ' : St)
    (hrun : generate_3d_model env p fmt now σ = (Except.ok r, σ')) :
    r.success = true ∧ r.model_id = σ.sup ∧ σ'.sup = σ.sup + 1 ∧
      r.formats = selectFormats fmt := by
  unfold generate_3d_model at hrun
  cases hT : env.trellisRun with
  | error m =>
    rw [hT] at hrun
    have := congrArg Prod.fst hrun
    simp at this
  | ok outputs =>
    rw [hT] at hrun
    simp only [St.call, St.fresh, St.write] at hrun
    repeat' split at hrun
    all_goals
      simp only [Prod.mk.injEq, Except.ok.injEq] at hrun
    all_goals obtain ⟨h1, h2⟩ := hrun
    all_goals subst h1 h2
    all_goals exact ⟨rfl, rfl, rfl, rfl⟩

/-- On success, the reported file mapping of `generate_3d_model`, as a
function of the selected formats, the pipeline outputs, and the GLB export
outcome. -/
theorem generate_3d_model_ok_files (env : Oracle) (p : FPath) (fmt : String)
    (now : Int) (σ : St) (outputs : PipelineOutputs) (r : ModelResult) (σ' : St)
    (hT : env.trellisRun = Except.ok outputs)
    (hrun : generate_3d_model env p fmt now σ = (Except.ok r, σ')) :
    r.files =
      (if (selectFormats fmt).contains "gaussian" && !outputs.gaussian.isEmpty then
        [("ply", (⟨Dir.outputs, FName.modelPly σ.sup⟩ : FPath)),
         ("preview_video", (⟨Dir.outputs, FName.preview σ.sup⟩ : FPath))]
      else []) ++
      (if (selectFormats fmt).contains "mesh" && !outputs.mesh.isEmpty then
        (if env.glbExportOk then
          [("glb", (⟨Dir.outputs, FName.modelGlb σ.sup⟩ : FPath))]
        else [])
      else []) := by
  unfold generate_3d_model at hrun
  rw [hT] at hrun
  simp only [St.call, St.fresh, St.write] at hrun
  repeat' split at hrun
  all_goals
    simp only [Prod.mk.injEq, Except.ok.injEq] at hrun
  all_goals obtain ⟨h1, h2⟩ := hrun
  all_goals subst h1 h2
  all_goals simp_all

/-- On success, every entry of the resulting filesystem was already present
or is located at the path of one of the reported files. -/
theorem generate_3d_model_new_entries (env : Oracle) (p : FPath) (fmt : String)
    (now : Int) (σ : St) (r : ModelResult) (σ' : St)
    (hrun : generate_3d_model env p fmt now σ = (Except.ok r, σ')) :
    ∀ e ∈ σ'.fs, e ∈ σ.fs ∨ ∃ kv ∈ r.files, kv.2 = e.path := by
  unfold generate_3d_model at hrun
  cases hT : env.trellisRun with
  | error m =>
    rw [hT] at hrun
    have := congrArg Prod.fst hrun
    simp at this
  | ok outputs =>
    rw [hT] at hrun
    simp only [St.call, St.fresh, St.write] at hrun
    repeat' split at hrun
    all_goals
      simp only [Prod.mk.injEq, Except.ok.injEq] at hrun
    all_goals obtain ⟨h1, h2⟩ := hrun
    all_goals subst h1 h2
    all_goals intro e he
    all_goals try dsimp only at he
    all_goals try rcases mem_writeFS_elim he with he | hpath
    all_goals try rcases mem_writeFS_elim he with he | hpath
    all_goals try rcases mem_writeFS_elim he with he | hpath
    all_goals
      first
      | exact Or.inl he
      | simp [hpath]

/-- The kinds ever reported by `generate_3d_model` are `ply`,
`preview_video`, and `glb`. -/
theorem generate_3d_model_file_kinds (env : Oracle) (p : FPath) (fmt : String)
    (now : Int) (σ : St) (r : ModelResult) (σ' : St)
    (hrun : generate_3d_model env p fmt now σ = (Except.ok r, σ')) :
    ∀ kv ∈ r.files, kv.1 = "ply" ∨ kv.1 = "preview_video" ∨ kv.1 = "glb" := by
  unfold generate_3d_model at hrun
  cases hT : env.trellisRun with
  | error m =>
    rw [hT] at hrun
    have := congrArg Prod.fst hrun
    simp at this
  | ok outputs =>
    rw [hT] at hrun
    simp only [St.call, St.fresh, St.write] at hrun
    repeat' split at hrun
    all_goals
      simp only [Prod.mk.injEq, Except.ok.injEq] at hrun
    all_goals obtain ⟨h1, h2⟩ := hrun
    all_goals subst h1 h2
    all_goals intro kv hkv
    all_goals
      simp only [List.mem_append, List.mem_cons, List.not_mem_nil, or_false,
        false_or, or_assoc, List.mem_singleton] at hkv
    all_goals try rcases hkv with rfl | rfl | rfl
    all_goals try simp

/-! ## Claim theorems -/

/-- C7. Prompt composition is a pure, deterministic function of its three
inputs: composing twice yields the identical instruction string, equal to the
fixed template embedding the user prompt and the two descriptions; and the
Image Synthesizer passes exactly this composed string, unchanged, to its
model call. -/
theorem prompt_composition_pure (u c s : String) :
    composePrompt u c s = composePrompt u c s ∧
    composePrompt u c s =
      u ++ ". " ++
        "The main character of the figure should be based on a person with these features: **(" ++
        c ++ ")**. " ++
        "The overall artistic look and feel of the toy should match this style: **(" ++
        s ++ ")**." ∧
    (∀ (env : Oracle) (p : FPath) (now : Int) (σ : St),
      ((generate_toy_image env u c s p now σ).2).calls
        = σ.calls ++ [Call.imageGen (composePrompt u c s) p]) := by
  refine ⟨rfl, rfl, fun env p now σ => ?_⟩
  cases hG : env.genParts with
  | error m =>
    rw [generate_toy_image_err env u c s p now σ m hG]
    rfl
  | ok parts =>
    cases hFind : parts.find? (fun q => q.inline_data.isSome) with
    | none =>
      rw [generate_toy_image_none env u c s p now σ parts hG hFind]
      rfl
    | some part =>
      rw [generate_toy_image_some env u c s p now σ parts part hG hFind]

/-- C5. For every request to an upload endpoint, every scratch file path
named by that request (the body's `temp_files` list) is absent from the
filesystem once the request completes — on success, validation rejection, and
every model-call failure alike, thanks to the `finally` deletion loops. -/
theorem scratch_files_absent_after_request (env : Oracle) (pi sg img : Upload)
    (pr fmt : String) (now : Int) (σ : St) :
    (∀ p ∈ (generate_toy_body env pi sg pr fmt now σ).2.1,
        pathExists ((generate_toy_endpoint env pi sg pr fmt now σ).2).fs p = false) ∧
    (∀ p ∈ (generate_image_only_body env pi sg pr now σ).2.1,
        pathExists ((generate_image_only env pi sg pr now σ).2).fs p = false) ∧
    (∀ p ∈ (image_to_3d_body env img fmt now σ).2.1,
        pathExists ((image_to_3d env img fmt now σ).2).fs p = false) := by
  refine ⟨fun p hp => ?_, fun p hp => ?_, fun p hp => ?_⟩
  · rcases hB : generate_toy_body env pi sg pr fmt now σ with ⟨res, temps, σ'⟩
    rw [hB] at hp
    unfold generate_toy_endpoint
    simp only [hB]
    exact pathExists_unlinkAllFS σ'.fs temps p (by simpa using hp)
  · rcases hB : generate_image_only_body env pi sg pr now σ with ⟨res, temps, σ'⟩
    rw [hB] at hp
    unfold generate_image_only
    simp only [hB]
    exact pathExists_unlinkAllFS σ'.fs temps p (by simpa using hp)
  · rcases hB : image_to_3d_body env img fmt now σ with ⟨res, temps, σ'⟩
    rw [hB] at hp
    unfold image_to_3d
    simp only [hB]
    exact pathExists_unlinkAllFS σ'.fs temps p (by simpa using hp)

/-- C5 witness. A concrete `/generate-toy` request: its first scratch path
(`person_{uuid0}`) is gone from the filesystem afterwards. -/
theorem scratch_files_absent_after_request_witness :
    pathExists ((generate_toy_endpoint sampleOracle sampleImageUpload sampleImageUpload
        "p" "gaussian" 100 emptySt).2).fs ⟨Dir.temp, FName.person 0⟩ = false :=
  (scratch_files_absent_after_request sampleOracle sampleImageUpload sampleImageUpload
      sampleImageUpload "p" "gaussian" 100 emptySt).1
    ⟨Dir.temp, FName.person 0⟩ (by decide)

/-- C1 (amended). Only `/generate-toy` validates the declared media types:
a non-image `person_image` (or `style_guide`) makes it return HTTP 400 with
the whole state untouched — no model call recorded, no file written, no uuid
drawn.  `/generate-image-only` and `/image-to-3d` perform no content-type
validation: whatever the declared media types, each invokes its first model
call. -/
theorem non_image_upload_rejected_only_by_generate_toy
    (env : Oracle) (pi sg img : Upload) (pr fmt : String) (now : Int) (σ : St) :
    (strStartsWith pi.content_type "image/" = false →
      generate_toy_endpoint env pi sg pr fmt now σ =
        (Except.error ⟨400, "Person file must be an image"⟩, σ)) ∧
    (strStartsWith pi.content_type "image/" = true →
      strStartsWith sg.content_type "image/" = false →
      generate_toy_endpoint env pi sg pr fmt now σ =
        (Except.error ⟨400, "Style guide file must be an image"⟩, σ)) ∧
    (Call.visionPerson ⟨Dir.temp, FName.person σ.sup⟩
        ∈ ((generate_image_only env pi sg pr now σ).2).calls) ∧
    (Call.trellisRun ⟨Dir.temp, FName.input σ.sup⟩ (selectFormats fmt)
        ∈ ((image_to_3d env img fmt now σ).2).calls) := by
  refine ⟨fun h1 => ?_, fun h1 h2 => ?_, ?_, ?_⟩
  · unfold generate_toy_endpoint generate_toy_body
    rw [h1]
    rfl
  · unfold generate_toy_endpoint generate_toy_body
    rw [h1, h2]
    rfl
  · have h := (generate_image_only_body_state env pi sg pr now σ).2.2.2
    rcases hB : generate_image_only_body env pi sg pr now σ with ⟨res, temps, σ'⟩
    rw [hB] at h
    unfold generate_image_only
    simp only [hB]
    exact h
  · have h := (image_to_3d_body_state env img fmt now σ).2.2.2
    rcases hB : image_to_3d_body env img fmt now σ with ⟨res, temps, σ'⟩
    rw [hB] at h
    unfold image_to_3d
    simp only [hB]
    exact h

/-- C1 witness. A concrete `text/plain` upload to `/generate-toy` yields
exactly the 400 rejection with the state unchanged. -/
theorem non_image_upload_rejected_only_by_generate_toy_witness :
    generate_toy_endpoint sampleOracle sampleTextUpload sampleImageUpload
        "p" "gaussian" 100 emptySt =
      (Except.error ⟨400, "Person file must be an image"⟩, emptySt) :=
  (non_image_upload_rejected_only_by_generate_toy sampleOracle sampleTextUpload
      sampleImageUpload sampleImageUpload "p" "gaussian" 100 emptySt).1 (by decide)

/-- C1 counterexample. The claim "every upload endpoint rejects non-image
media types before any model call" is false: `/generate-image-only`, given a
`text/plain` person image, returns success and makes three model calls. -/
theorem non_image_upload_not_rejected_counterexample :
    ((generate_image_only sampleOracle sampleTextUpload sampleImageUpload
        "make a toy" 100 emptySt).1 =
      Except.ok ⟨true, ⟨Dir.outputs, FName.generatedToy 2⟩, "a person", "a style"⟩) ∧
    ((generate_image_only sampleOracle sampleTextUpload sampleImageUpload
        "make a toy" 100 emptySt).2).calls.length = 3 := by
  constructor
  · rfl
  · rfl

/-- C2 (amended). Given that the generation call itself returns a part
list, the Image Synthesizer raises a server error exactly when no part
carries inline data — with detail "Error generating toy image: 500: Model did
not return an image" (the inner 500 re-wrapped by the function's own generic
handler), not the spec's "model returned no image" — and otherwise persists
exactly the first inline payload under a freshly drawn uuid and returns its
path. -/
theorem image_synthesizer_no_image_iff (env : Oracle) (u c s : String) (p : FPath)
    (now : Int) (σ : St) (parts : List Part)
    (h : env.genParts = Except.ok parts) :
    ((∀ part ∈ parts, part.inline_data = none) →
      generate_toy_image env u c s p now σ =
        (Except.error ⟨500,
            "Error generating toy image: 500: Model did not return an image"⟩,
         σ.call (Call.imageGen (composePrompt u c s) p))) ∧
    (∀ (part : Part) (data : String),
      parts.find? (fun q => q.inline_data.isSome) = some part →
      part.inline_data = some data →
      generate_toy_image env u c s p now σ =
        (Except.ok ⟨Dir.outputs, FName.generatedToy σ.sup⟩,
         ⟨writeFS σ.fs ⟨Dir.outputs, FName.generatedToy σ.sup⟩ now data,
          σ.sup + 1, σ.calls ++ [Call.imageGen (composePrompt u c s) p]⟩)) := by
  constructor
  · intro hall
    have hFind : parts.find? (fun q => q.inline_data.isSome) = none := by
      rw [List.find?_eq_none]
      intro q hq
      simp [hall q hq]
    rw [generate_toy_image_none env u c s p now σ parts h hFind]
    rfl
  · intro part data hFind hdata
    rw [generate_toy_image_some env u c s p now σ parts part h hFind, hdata]
    rfl

/-- C2 witness. Concrete instances of both directions: a partless
response raises the wrapped 500; a response whose second part carries data
`D` persists exactly `D` under uuid token 0. -/
theorem image_synthesizer_no_image_iff_witness :
    (generate_toy_image ⟨Except.ok "a", Except.ok "b", Except.ok [⟨none⟩],
        Except.ok ⟨[], []⟩, true⟩ "u" "c" "s" ⟨Dir.temp, FName.person 0⟩ 0 emptySt =
      (Except.error ⟨500,
          "Error generating toy image: 500: Model did not return an image"⟩,
       emptySt.call (Call.imageGen (composePrompt "u" "c" "s")
          ⟨Dir.temp, FName.person 0⟩))) ∧
    (generate_toy_image ⟨Except.ok "a", Except.ok "b", Except.ok [⟨none⟩, ⟨some "D"⟩],
        Except.ok ⟨[], []⟩, true⟩ "u" "c" "s" ⟨Dir.temp, FName.person 0⟩ 0 emptySt =
      (Except.ok ⟨Dir.outputs, FName.generatedToy 0⟩,
       ⟨writeFS emptySt.fs ⟨Dir.outputs, FName.generatedToy 0⟩ 0 "D", 1,
        emptySt.calls ++ [Call.imageGen (composePrompt "u" "c" "s")
          ⟨Dir.temp, FName.person 0⟩]⟩)) :=
  ⟨(image_synthesizer_no_image_iff
      ⟨Except.ok "a", Except.ok "b", Except.ok [⟨none⟩], Except.ok ⟨[], []⟩, true⟩
      "u" "c" "s" ⟨Dir.temp, FName.person 0⟩ 0 emptySt [⟨none⟩] rfl).1 (by decide),
   (image_synthesizer_no_image_iff
      ⟨Except.ok "a", Except.ok "b", Except.ok [⟨none⟩, ⟨some "D"⟩],
       Except.ok ⟨[], []⟩, true⟩
      "u" "c" "s" ⟨Dir.temp, FName.person 0⟩ 0 emptySt [⟨none⟩, ⟨some "D"⟩] rfl).2
      ⟨some "D"⟩ "D" rfl rfl⟩

/-- C2 counterexample. At a response with no inline image part the
signalled detail is the re-wrapped "Error generating toy image: 500: Model
did not return an image" — not "model returned no image" as the claim
states. -/
theorem image_synthesizer_detail_counterexample :
    ((generate_toy_image ⟨Except.ok "a", Except.ok "b", Except.ok [⟨none⟩],
          Except.ok ⟨[], []⟩, true⟩ "u" "c" "s" ⟨Dir.temp, FName.person 0⟩ 0 emptySt).1 =
      Except.error ⟨500,
        "Error generating toy image: 500: Model did not return an image"⟩) ∧
    ("Error generating toy image: 500: Model did not return an image" ≠
      "model returned no image") :=
  ⟨rfl, by decide⟩

/-- C3. `output_format="all"` selects exactly the format triple {gaussian,
radiance_field, mesh}; any other value selects the singleton containing it;
and for a single requested format every reported file belongs to that format
(never to either of the other two), while every filesystem entry created is
the path of a reported file. -/
theorem single_format_selection (fmt : String) :
    selectFormats "all" = ["gaussian", "radiance_field", "mesh"] ∧
    (fmt ≠ "all" → selectFormats fmt = [fmt]) ∧
    (∀ (env : Oracle) (p : FPath) (now : Int) (σ : St) (r : ModelResult) (σ' : St),
      fmt ≠ "all" →
      generate_3d_model env p fmt now σ = (Except.ok r, σ') →
      (∀ kv ∈ r.files, kindFormat kv.1 = some fmt) ∧
      (∀ e ∈ σ'.fs, e ∈ σ.fs ∨ ∃ kv ∈ r.files, kv.2 = e.path)) := by
  refine ⟨by simp [selectFormats], fun h => by simp [selectFormats, h], ?_⟩
  intro env p now σ r σ' h hrun
  refine ⟨?_, generate_3d_model_new_entries env p fmt now σ r σ' hrun⟩
  cases hT : env.trellisRun with
  | error m =>
    rw [generate_3d_model_err env p fmt now σ m hT] at hrun
    exact absurd (congrArg Prod.fst hrun) (by simp)
  | ok outputs =>
    have hf := generate_3d_model_ok_files env p fmt now σ outputs r σ' hT hrun
    rw [show selectFormats fmt = [fmt] from by simp [selectFormats, h]] at hf
    intro kv hkv
    rw [hf] at hkv
    by_cases hg : fmt = "gaussian"
    · subst hg
      rw [show ((["gaussian"] : List String).contains "mesh") = false from by decide]
        at hkv
      simp only [Bool.false_and, Bool.false_eq_true, if_false, List.append_nil] at hkv
      split at hkv
      · rcases List.mem_cons.mp hkv with rfl | hkv
        · rfl
        · rcases List.mem_cons.mp hkv with rfl | hkv
          · rfl
          · exact absurd hkv (List.not_mem_nil kv)
      · exact absurd hkv (List.not_mem_nil kv)
    · by_cases hm : fmt = "mesh"
      · subst hm
        rw [show ((["mesh"] : List String).contains "gaussian") = false from by decide]
          at hkv
        simp only [Bool.false_and, Bool.false_eq_true, if_false, List.nil_append] at hkv
        split at hkv
        · split at hkv
          · rcases List.mem_cons.mp hkv with rfl | hkv
            · rfl
            · exact absurd hkv (List.not_mem_nil kv)
          · exact absurd hkv (List.not_mem_nil kv)
        · exact absurd hkv (List.not_mem_nil kv)
      · rw [show (([fmt] : List String).contains "gaussian") = false from by
            simp [List.elem_cons, List.elem_nil, Ne.symm hg],
          show (([fmt] : List String).contains "mesh") = false from by
            simp [List.elem_cons, List.elem_nil, Ne.symm hm]] at hkv
        simp only [Bool.false_and, Bool.false_eq_true, if_false, List.append_nil] at hkv
        exact absurd hkv (List.not_mem_nil kv)

/-- C3 witness. A concrete mesh-only run: the sole reported file is the
GLB, which belongs to the mesh format. -/
theorem single_format_selection_witness :
    kindFormat ("glb", (⟨Dir.outputs, FName.modelGlb 0⟩ : FPath)).1 = some "mesh" :=
  ((single_format_selection "mesh").2.2 sampleOracle ⟨Dir.temp, FName.input 0⟩ 100
      emptySt
      ⟨true, 0, [("glb", ⟨Dir.outputs, FName.modelGlb 0⟩)], ["mesh"]⟩
      ⟨[⟨⟨Dir.outputs, FName.modelGlb 0⟩, 100, true, "glb:m0"⟩], 1,
       [Call.trellisRun ⟨Dir.temp, FName.input 0⟩ ["mesh"]]⟩
      (by decide) rfl).1
    ("glb", ⟨Dir.outputs, FName.modelGlb 0⟩) (by decide)

/-- C4. If the GLB export raises during reconstruction, the result still
reports success with the same fresh model identifier and format list; the
`glb` entry is absent, and the remaining entries are exactly those of the
corresponding run whose export succeeds, minus `glb` (point cloud and preview
video survive). -/
theorem glb_export_failure_nonfatal (env : Oracle) (p : FPath) (fmt : String)
    (now : Int) (σ : St) (r₁ r₂ : ModelResult) (σ₁ σ₂ : St)
    (hok : env.glbExportOk = true)
    (h₁ : generate_3d_model env p fmt now σ = (Except.ok r₁, σ₁))
    (h₂ : generate_3d_model { env with glbExportOk := false } p fmt now σ
        = (Except.ok r₂, σ₂)) :
    r₂.success = true ∧ r₂.files.lookup "glb" = none ∧
    r₂.files = r₁.files.filter (fun kv => !(kv.1 == "glb")) ∧
    r₂.model_id = r₁.model_id ∧ r₂.formats = r₁.formats := by
  cases hT : env.trellisRun with
  | error m =>
    rw [generate_3d_model_err env p fmt now σ m hT] at h₁
    exact absurd (congrArg Prod.fst h₁) (by simp)
  | ok outputs =>
    have hf₁ := generate_3d_model_ok_files env p fmt now σ outputs r₁ σ₁ hT h₁
    have hf₂ := generate_3d_model_ok_files { env with glbExportOk := false } p fmt
      now σ outputs r₂ σ₂ (by simpa using hT) h₂
    have hc₁ := generate_3d_model_ok_core env p fmt now σ r₁ σ₁ h₁
    have hc₂ := generate_3d_model_ok_core { env with glbExportOk := false } p fmt
      now σ r₂ σ₂ h₂
    rw [hok] at hf₁
    simp only [if_true] at hf₁
    simp only [Bool.false_eq_true, if_false, ite_self, List.append_nil] at hf₂
    refine ⟨hc₂.1, ?_, ?_, by rw [hc₂.2.1, hc₁.2.1], by rw [hc₂.2.2.2, hc₁.2.2.2]⟩
    · rw [hf₂]
      have k1 : (("glb" : String) == "ply") = false := by decide
      have k2 : (("glb" : String) == "preview_video") = false := by decide
      split
      · simp [List.lookup, k1, k2]
      · simp [List.lookup]
    · rw [hf₁, hf₂, List.filter_append]
      have e1 : (("ply" : String) == "glb") = false := by decide
      have e2 : (("preview_video" : String) == "glb") = false := by decide
      have e3 : (("glb" : String) == "glb") = true := by decide
      split
      · split
        · simp [List.filter, e1, e2, e3]
        · simp [List.filter, e1, e2]
      · split
        · simp [List.filter, e3]
        · simp [List.filter]

/-- C4 witness. A concrete "all" run whose GLB export fails still
succeeds, keeps the point cloud and preview entries, and lacks `glb`. -/
theorem glb_export_failure_nonfatal_witness :
    ((⟨true, 0,
        [("ply", ⟨Dir.outputs, FName.modelPly 0⟩),
         ("preview_video", ⟨Dir.outputs, FName.preview 0⟩)],
        ["gaussian", "radiance_field", "mesh"]⟩ : ModelResult)).success = true ∧
    ((⟨true, 0,
        [("ply", ⟨Dir.outputs, FName.modelPly 0⟩),
         ("preview_video", ⟨Dir.outputs, FName.preview 0⟩)],
        ["gaussian", "radiance_field", "mesh"]⟩ : ModelResult)).files.lookup "glb"
      = none ∧
    ((⟨true, 0,
        [("ply", ⟨Dir.outputs, FName.modelPly 0⟩),
         ("preview_video", ⟨Dir.outputs, FName.preview 0⟩)],
        ["gaussian", "radiance_field", "mesh"]⟩ : ModelResult)).files =
      ((⟨true, 0,
        [("ply", ⟨Dir.outputs, FName.modelPly 0⟩),
         ("preview_video", ⟨Dir.outputs, FName.preview 0⟩),
         ("glb", ⟨Dir.outputs, FName.modelGlb 0⟩)],
        ["gaussian", "radiance_field", "mesh"]⟩ : ModelResult)).files.filter
          (fun kv => !(kv.1 == "glb")) ∧
    (0 : Nat) = 0 ∧
    (["gaussian", "radiance_field", "mesh"] : List String)
      = ["gaussian", "radiance_field", "mesh"] := by
  have h := glb_export_failure_nonfatal sampleOracle ⟨Dir.temp, FName.input 0⟩ "all"
    100 emptySt
    ⟨true, 0,
      [("ply", ⟨Dir.outputs, FName.modelPly 0⟩),
       ("preview_video", ⟨Dir.outputs, FName.preview 0⟩),
       ("glb", ⟨Dir.outputs, FName.modelGlb 0⟩)],
      ["gaussian", "radiance_field", "mesh"]⟩
    ⟨true, 0,
      [("ply", ⟨Dir.outputs, FName.modelPly 0⟩),
       ("preview_video", ⟨Dir.outputs, FName.preview 0⟩)],
      ["gaussian", "radiance_field", "mesh"]⟩
    ⟨[⟨⟨Dir.outputs, FName.modelPly 0⟩, 100, true, "g0"⟩,
      ⟨⟨Dir.outputs, FName.preview 0⟩, 100, true, "render:g0"⟩,
      ⟨⟨Dir.outputs, FName.modelGlb 0⟩, 100, true, "glb:m0"⟩], 1,
     [Call.trellisRun ⟨Dir.temp, FName.input 0⟩ ["gaussian", "radiance_field", "mesh"]]⟩
    ⟨[⟨⟨Dir.outputs, FName.modelPly 0⟩, 100, true, "g0"⟩,
      ⟨⟨Dir.outputs, FName.preview 0⟩, 100, true, "render:g0"⟩], 1,
     [Call.trellisRun ⟨Dir.temp, FName.input 0⟩ ["gaussian", "radiance_field", "mesh"]]⟩
    rfl rfl rfl
  exact h

/-- C10. `output_format` is never validated: for any single value other
than "gaussian" or "mesh" (including "radiance_field"), a non-raising
reconstruction returns success with an empty file mapping and writes no file;
and on every path whatsoever, the reported file kinds are only `ply`,
`preview_video`, and `glb` — no radiance-field file is ever persisted. -/
theorem output_format_not_validated (fmt : String) :
    (fmt ≠ "all" → fmt ≠ "gaussian" → fmt ≠ "mesh" →
      ∀ (env : Oracle) (p : FPath) (now : Int) (σ : St) (r : ModelResult) (σ' : St),
        generate_3d_model env p fmt now σ = (Except.ok r, σ') →
        r.success = true ∧ r.files = [] ∧ σ'.fs = σ.fs) ∧
    (∀ (f₂ : String) (env : Oracle) (p : FPath) (now : Int) (σ : St)
        (r : ModelResult) (σ' : St),
      generate_3d_model env p f₂ now σ = (Except.ok r, σ') →
      ∀ kv ∈ r.files, kv.1 = "ply" ∨ kv.1 = "preview_video" ∨ kv.1 = "glb") := by
  constructor
  · intro hall hg hm env p now σ r σ' hrun
    have hsel : selectFormats fmt = [fmt] := by simp [selectFormats, hall]
    have c1 : (([fmt] : List String).contains "gaussian") = false := by
      simp [List.elem_cons, List.elem_nil, Ne.symm hg]
    have c2 : (([fmt] : List String).contains "mesh") = false := by
      simp [List.elem_cons, List.elem_nil, Ne.symm hm]
    unfold generate_3d_model at hrun
    cases hT : env.trellisRun with
    | error m =>
      rw [hT] at hrun
      exact absurd (congrArg Prod.fst hrun) (by simp)
    | ok outputs =>
      rw [hT] at hrun
      simp only [St.call, St.fresh, St.write, hsel, c1, c2, Bool.false_and,
        Bool.false_eq_true, if_false, List.append_nil] at hrun
      simp only [Prod.mk.injEq, Except.ok.injEq] at hrun
      obtain ⟨h1, h2⟩ := hrun
      subst h1 h2
      exact ⟨rfl, rfl, rfl⟩
  · intro f₂ env p now σ r σ' hrun
    exact generate_3d_model_file_kinds env p f₂ now σ r σ' hrun

/-- C10 witness. A concrete `radiance_field` reconstruction returns
success with an empty file mapping and leaves the filesystem unchanged. -/
theorem output_format_not_validated_witness :
    ((⟨true, 0, [], ["radiance_field"]⟩ : ModelResult)).success = true ∧
    ((⟨true, 0, [], ["radiance_field"]⟩ : ModelResult)).files = ([] : List (String × FPath)) ∧
    (((⟨[], 1, [Call.trellisRun ⟨Dir.temp, FName.input 0⟩ ["radiance_field"]]⟩ : St)).fs
      = (emptySt : St).fs) :=
  (output_format_not_validated "radiance_field").1 (by decide) (by decide) (by decide)
    sampleOracle ⟨Dir.temp, FName.input 0⟩ 100 emptySt
    ⟨true, 0, [], ["radiance_field"]⟩
    ⟨[], 1, [Call.trellisRun ⟨Dir.temp, FName.input 0⟩ ["radiance_field"]]⟩ rfl

/-- C8. Model identifiers are freshly drawn per successful
reconstruction and never reused across sequentially composed requests; and no
request-handling endpoint ever removes an existing output-directory file — the
retention sweeper is the only deleting component. -/
theorem asset_ids_fresh_and_outputs_never_deleted :
    (∀ (e₁ e₂ : Oracle) (p₁ p₂ : FPath) (f₁ f₂ : String) (n₁ n₂ : Int)
        (σ σ₁ σ₂ : St) (r₁ r₂ : ModelResult),
      generate_3d_model e₁ p₁ f₁ n₁ σ = (Except.ok r₁, σ₁) →
      generate_3d_model e₂ p₂ f₂ n₂ σ₁ = (Except.ok r₂, σ₂) →
      r₁.model_id ≠ r₂.model_id) ∧
    (∀ (env : Oracle) (pi sg : Upload) (pr fmt : String) (now : Int) (σ : St)
        (e : FileEntry), entryFresh e σ.sup → e ∈ σ.fs → e.path.dir = Dir.outputs →
      e ∈ ((generate_toy_endpoint env pi sg pr fmt now σ).2).fs) ∧
    (∀ (env : Oracle) (pi sg : Upload) (pr : String) (now : Int) (σ : St)
        (e : FileEntry), entryFresh e σ.sup → e ∈ σ.fs → e.path.dir = Dir.outputs →
      e ∈ ((generate_image_only env pi sg pr now σ).2).fs) ∧
    (∀ (env : Oracle) (img : Upload) (fmt : String) (now : Int) (σ : St)
        (e : FileEntry), entryFresh e σ.sup → e ∈ σ.fs → e.path.dir = Dir.outputs →
      e ∈ ((image_to_3d env img fmt now σ).2).fs) := by
  refine ⟨?_, ?_, ?_, ?_⟩
  · intro e₁ e₂ p₁ p₂ f₁ f₂ n₁ n₂ σ σ₁ σ₂ r₁ r₂ h1 h2
    obtain ⟨-, hid1, hs1, -⟩ := generate_3d_model_ok_core e₁ p₁ f₁ n₁ σ r₁ σ₁ h1
    obtain ⟨-, hid2, -, -⟩ := generate_3d_model_ok_core e₂ p₂ f₂ n₂ σ₁ r₂ σ₂ h2
    rw [hid1, hid2, hs1]
    omega
  · intro env pi sg pr fmt now σ e hfr he hd
    have hs := generate_toy_body_state env pi sg pr fmt now σ
    rcases hB : generate_toy_body env pi sg pr fmt now σ with ⟨res, temps, σ'⟩
    rw [hB] at hs
    unfold generate_toy_endpoint
    simp only [hB]
    refine mem_unlinkAllFS_of_ne temps (hs.2.1 e hfr he) (fun q hq => ?_)
    obtain ⟨i, hid, hi⟩ := hs.2.2 q hq
    exact entryFresh_ne hfr hi q.dir q.name hid
  · intro env pi sg pr now σ e hfr he hd
    have hs := generate_image_only_body_state env pi sg pr now σ
    rcases hB : generate_image_only_body env pi sg pr now σ with ⟨res, temps, σ'⟩
    rw [hB] at hs
    unfold generate_image_only
    simp only [hB]
    refine mem_unlinkAllFS_of_ne temps (hs.2.1 e hfr he) (fun q hq => ?_)
    obtain ⟨i, hid, hi⟩ := hs.2.2.1 q hq
    exact entryFresh_ne hfr hi q.dir q.name hid
  · intro env img fmt now σ e hfr he hd
    have hs := image_to_3d_body_state env img fmt now σ
    rcases hB : image_to_3d_body env img fmt now σ with ⟨res, temps, σ'⟩
    rw [hB] at hs
    unfold image_to_3d
    simp only [hB]
    refine mem_unlinkAllFS_of_ne temps (hs.2.1 e hfr he) (fun q hq => ?_)
    obtain ⟨i, hid, hi⟩ := hs.2.2.1 q hq
    exact entryFresh_ne hfr hi q.dir q.name hid

/-- C8 witness. Two concrete back-to-back reconstructions draw distinct
model identifiers (0 then 1); and a concrete pre-existing output file
survives a full `/image-to-3d` request. -/
theorem asset_ids_fresh_and_outputs_never_deleted_witness :
    ((⟨true, 0,
        [("glb", ⟨Dir.outputs, FName.modelGlb 0⟩)], ["mesh"]⟩ : ModelResult)).model_id ≠
      ((⟨true, 1,
        [("ply", ⟨Dir.outputs, FName.modelPly 1⟩),
         ("preview_video", ⟨Dir.outputs, FName.preview 1⟩)],
        ["gaussian"]⟩ : ModelResult)).model_id ∧
    (⟨⟨Dir.outputs, FName.other "keep.ply"⟩, 0, true, "x"⟩ : FileEntry) ∈
      ((image_to_3d sampleOracle sampleImageUpload "gaussian" 100
          ⟨[⟨⟨Dir.outputs, FName.other "keep.ply"⟩, 0, true, "x"⟩], 0, []⟩).2).fs := by
  constructor
  · exact (asset_ids_fresh_and_outputs_never_deleted).1 sampleOracle sampleOracle
      ⟨Dir.temp, FName.input 0⟩ ⟨Dir.temp, FName.input 1⟩ "mesh" "gaussian" 100 100
      emptySt
      ⟨[⟨⟨Dir.outputs, FName.modelGlb 0⟩, 100, true, "glb:m0"⟩], 1,
       [Call.trellisRun ⟨Dir.temp, FName.input 0⟩ ["mesh"]]⟩
      ⟨[⟨⟨Dir.outputs, FName.modelGlb 0⟩, 100, true, "glb:m0"⟩,
        ⟨⟨Dir.outputs, FName.modelPly 1⟩, 100, true, "g0"⟩,
        ⟨⟨Dir.outputs, FName.preview 1⟩, 100, true, "render:g0"⟩], 2,
       [Call.trellisRun ⟨Dir.temp, FName.input 0⟩ ["mesh"],
        Call.trellisRun ⟨Dir.temp, FName.input 1⟩ ["gaussian"]]⟩
      ⟨true, 0, [("glb", ⟨Dir.outputs, FName.modelGlb 0⟩)], ["mesh"]⟩
      ⟨true, 1,
        [("ply", ⟨Dir.outputs, FName.modelPly 1⟩),
         ("preview_video", ⟨Dir.outputs, FName.preview 1⟩)], ["gaussian"]⟩
      rfl rfl
  · exact (asset_ids_fresh_and_outputs_never_deleted).2.2.2 sampleOracle
      sampleImageUpload "gaussian" 100
      ⟨[⟨⟨Dir.outputs, FName.other "keep.ply"⟩, 0, true, "x"⟩], 0, []⟩
      ⟨⟨Dir.outputs, FName.other "keep.ply"⟩, 0, true, "x"⟩
      (fun i hi => by simp [FName.idOf] at hi)
      (by decide) rfl

end ToyService
